import Mathlib

/-
Shallow embedding of src/templates/python/main.py (aifabrix-builder's
Python application template): a Flask app with two GET endpoints, a root
endpoint and a health endpoint that optionally probes a PostgreSQL
database.

Externals are modelled explicitly:
  * the process environment is an Env record of the twelve variables the
    program reads (each an Option String, as os.environ.get returns);
  * psycopg2 availability, urllib.parse.urlparse and psycopg2.connect
    live in a World record; connect returns Except String Unit, the
    error carrying str(e) of the raised exception, and conn.close() is
    folded into a successful connect since the connection object is
    never otherwise used;
  * datetime.utcnow().isoformat() is a String parameter of health.

Python raising inside the try-block of check_database is modelled with
Except; the top-level int(os.environ.get('PORT', 3000)), which is outside
any try, is modelled as an Except whose error case is the unhandled
ValueError that kills the process at startup.
-/

/-- The process environment restricted to the variables main.py reads.
A field is none when the variable is unset; a set-but-empty variable is
some "". -/
structure Env where
  PORT : Option String := none
  DATABASE_URL : Option String := none
  DATABASE_HOST : Option String := none
  DB_HOST : Option String := none
  DATABASE_PORT : Option String := none
  DB_PORT : Option String := none
  DATABASE_NAME : Option String := none
  DB_NAME : Option String := none
  DATABASE_USER : Option String := none
  DB_USER : Option String := none
  DATABASE_PASSWORD : Option String := none
  DB_PASSWORD : Option String := none
  deriving DecidableEq

/-- Result of urllib.parse.urlparse on the DATABASE_URL string: the five
attributes check_database reads. hostname/username/password are None or a
string; port is None or an integer (urlparse only yields 0..65535); path
is always a string, possibly empty. -/
structure ParsedUrl where
  hostname : Option String := none
  port : Option Nat := none
  path : String := ""
  username : Option String := none
  password : Option String := none
  deriving DecidableEq

/-- The keyword arguments handed to psycopg2.connect. -/
structure ConnParams where
  host : String
  port : Int
  database : String
  user : String
  password : String
  deriving DecidableEq

/-- The external world: whether import psycopg2 succeeds, the urlparse
function, and the outcome of a psycopg2.connect call (error carries
str(e)). -/
structure World where
  psycopg2 : Bool
  urlparse : String → ParsedUrl
  connect : ConnParams → Except String Unit

/-- Python truthiness of an optional string: None and the empty string
are falsy. -/
def truthy : Option String → Bool
  | none => false
  | some s => !(s = "")

/-- Python `a or b` on two optional strings. -/
def pyOr (a b : Option String) : Option String :=
  if truthy a then a else b

/-- Python `a or d` where a is an optional string and d a string (models
`parsed.hostname or <default>` etc.). -/
def orStr (a : Option String) (d : String) : String :=
  match a with
  | some s => if s = "" then d else s
  | none => d

/-- Decimal value of a digit list. -/
def digitsVal (l : List Char) : Nat :=
  l.foldl (fun n c => n * 10 + (c.toNat - 48)) 0

/-- Nonempty and all decimal digits. -/
def allDigits (l : List Char) : Bool :=
  !l.isEmpty && l.all (fun c => c.isDigit)

/-- Python int() on a string, on the inputs this program can meet:
surrounding whitespace is stripped, then an optional sign followed by a
nonempty run of decimal digits. (CPython additionally allows underscore
digit-group separators, not modelled.) -/
def pyIntCore (s : String) : Option Int :=
  let t := ((s.data.dropWhile Char.isWhitespace).reverse.dropWhile Char.isWhitespace).reverse
  match t with
  | [] => none
  | c :: rest =>
    if c = '-' then
      if allDigits rest then some (-(digitsVal rest : Int)) else none
    else if c = '+' then
      if allDigits rest then some ((digitsVal rest : Int)) else none
    else if allDigits t then some ((digitsVal t : Int)) else none

/-- Python int() as an Except: the error is the ValueError text.
(CPython quotes the offending literal in the message; the quotes are
elided here.) -/
def pyInt (s : String) : Except String Int :=
  match pyIntCore s with
  | some n => Except.ok n
  | none => Except.error ("invalid literal for int() with base 10: " ++ s)

/-- Module line 6: PORT = int(os.environ.get('PORT', 3000)). Runs outside
any try, so the error case is an unhandled ValueError at startup. -/
def PORT (env : Env) : Except String Int :=
  match env.PORT with
  | some s => pyInt s
  | none => Except.ok 3000

/-- Lines 78-79: app.run(host='0.0.0.0', port=PORT, debug=False).
Startup succeeds with the bind address and port exactly when the PORT
parse did not raise. -/
def appRun (env : Env) : Except String (String × Int) :=
  match PORT env with
  | Except.ok p => Except.ok ("0.0.0.0", p)
  | Except.error e => Except.error e

/-- Port resolution in the DATABASE_URL branch:
`parsed.port or int(os.environ.get('DATABASE_PORT', 5432))`. The fallback
is taken when parsed.port is falsy (None, or the integer 0); int() on a
set DATABASE_PORT may raise. -/
def urlPortFallback (env : Env) : Except String Int :=
  match env.DATABASE_PORT with
  | some s => pyInt s
  | none => Except.ok 5432

/-- `parsed.port or int(os.environ.get('DATABASE_PORT', 5432))`. -/
def urlPort (p : Option Nat) (env : Env) : Except String Int :=
  match p with
  | some n => if n = 0 then urlPortFallback env else Except.ok (n : Int)
  | none => urlPortFallback env

/-- Lines 21-27: the psycopg2.connect keyword arguments in the
DATABASE_URL branch. Each absent (falsy) URL component falls back to the
primary DATABASE_* variable, then to the hardcoded default; the port
coercion may raise, in which case no parameters are produced. -/
def resolveUrlParams (up : String → ParsedUrl) (env : Env) (u : String) :
    Except String ConnParams :=
  let parsed := up u
  match urlPort parsed.port env with
  | Except.error e => Except.error e
  | Except.ok port =>
    Except.ok
      { host := orStr parsed.hostname (env.DATABASE_HOST.getD ("postgres"))
        port := port
        database :=
          if parsed.path = "" then env.DATABASE_NAME.getD ("postgres")
          else parsed.path.drop 1
        user := orStr parsed.username (env.DATABASE_USER.getD ("pgadmin"))
        password := orStr parsed.password (env.DATABASE_PASSWORD.getD ("admin123")) }

/-- Port resolution in the discrete-variables branch:
`int(os.environ.get('DATABASE_PORT', os.environ.get('DB_PORT', 5432)))`.
Presence-based (no truthiness); int() on a set value may raise. -/
def discretePort (env : Env) : Except String Int :=
  match env.DATABASE_PORT with
  | some s => pyInt s
  | none =>
    match env.DB_PORT with
    | some s => pyInt s
    | none => Except.ok 5432

/-- Lines 30-36: the psycopg2.connect keyword arguments in the
no-DATABASE_URL branch: primary variable, else legacy DB_* variable, else
hardcoded default, each resolved by presence (os.environ.get nesting). -/
def resolveDiscreteParams (env : Env) : Except String ConnParams :=
  match discretePort env with
  | Except.error e => Except.error e
  | Except.ok port =>
    Except.ok
      { host := env.DATABASE_HOST.getD (env.DB_HOST.getD ("postgres"))
        port := port
        database := env.DATABASE_NAME.getD (env.DB_NAME.getD ("postgres"))
        user := env.DATABASE_USER.getD (env.DB_USER.getD ("pgadmin"))
        password := env.DATABASE_PASSWORD.getD (env.DB_PASSWORD.getD ("admin123")) }

/-- The connection parameters check_database resolves: line 16's
`if database_url:` truthiness test selects the URL branch or the discrete
branch. -/
def resolvedParams (w : World) (env : Env) : Except String ConnParams :=
  match env.DATABASE_URL with
  | some u =>
    if u = "" then resolveDiscreteParams env
    else resolveUrlParams w.urlparse env u
  | none => resolveDiscreteParams env

/-- Return value of check_database: Python True, or a diagnostic
string. -/
inductive DbCheck where
  | ok : DbCheck
  | err : String → DbCheck
  deriving DecidableEq

/-- Connect with resolved parameters (or propagate the resolution
error): success returns True after conn.close(); any exception text
becomes the diagnostic string via the except-Exception handler. -/
def finishCheck (w : World) (pe : Except String ConnParams) : DbCheck :=
  match pe with
  | Except.error e => DbCheck.err e
  | Except.ok p =>
    match w.connect p with
    | Except.ok _ => DbCheck.ok
    | Except.error e => DbCheck.err e

/-- Lines 8-43: check_database(). import psycopg2 failing yields the
fixed ImportError message; otherwise resolve parameters (possibly
raising into the handler) and attempt one connection. -/
def check_database (w : World) (env : Env) : DbCheck :=
  if w.psycopg2 = false then DbCheck.err ("psycopg2 not installed")
  else finishCheck w (resolvedParams w env)

/-- Lines 54-59: the health endpoint's configuration-detection test:
`if database_url or database_host or database_name:` where database_host
and database_name are the Python `or` of primary and legacy variables. -/
def databaseConfigured (env : Env) : Bool :=
  truthy env.DATABASE_URL ||
  truthy (pyOr env.DATABASE_HOST env.DB_HOST) ||
  truthy (pyOr env.DATABASE_NAME env.DB_NAME)

/-- The /health JSON body plus HTTP status code: status and timestamp
always present, database and database_error optional. -/
structure HealthResponse where
  status : String
  timestamp : String
  database : Option String
  database_error : Option String
  code : Nat
  deriving DecidableEq

/-- Lines 45-68: the /health handler. now is
datetime.utcnow().isoformat(); the handler appends 'Z'. -/
def health (w : World) (env : Env) (now : String) : HealthResponse :=
  if databaseConfigured env then
    match check_database w env with
    | DbCheck.ok =>
      { status := "ok", timestamp := now ++ "Z", database := some ("connected")
        database_error := none, code := 200 }
    | DbCheck.err e =>
      { status := "ok", timestamp := now ++ "Z", database := some ("error")
        database_error := some e, code := 503 }
  else
    { status := "ok", timestamp := now ++ "Z", database := none
      database_error := none, code := 200 }

/-- The / JSON body. -/
structure RootResponse where
  message : String
  version : String
  deriving DecidableEq

/-- Lines 70-76: the root handler: a fixed body and HTTP 200, reading
nothing from the environment. -/
def root : RootResponse × Nat :=
  ({ message := "AI Fabrix Application", version := "1.0.0" }, 200)

/-- env with the five legacy DB_* variables overridden (used to state
that a computation never consults them). -/
def setLegacy (env : Env) (h p n u pw : Option String) : Env :=
  { env with DB_HOST := h, DB_PORT := p, DB_NAME := n, DB_USER := u,
             DB_PASSWORD := pw }

/-! Concrete environments and worlds used by witnesses and
counterexamples. -/

/-- A urlparse result with a hostname and a path but no port. -/
def purl0 : ParsedUrl :=
  { hostname := some ("dbhost"), port := none, path := "/appdb" }

/-- World: driver present, every connection attempt succeeds. -/
def wOk : World :=
  { psycopg2 := true, urlparse := fun _ => purl0,
    connect := fun _ => Except.ok () }

/-- World: driver present, every connection attempt fails. -/
def wErr : World :=
  { psycopg2 := true, urlparse := fun _ => purl0,
    connect := fun _ => Except.error ("connection refused") }

/-- Environment where DATABASE_HOST is set but empty. -/
def envC1 : Env := { DATABASE_HOST := some ("") }

/-- Environment with a nonempty DATABASE_HOST only. -/
def envHost : Env := { DATABASE_HOST := some ("dbhost") }

/-- Environment with a non-integer PORT. -/
def envBadPort : Env := { PORT := some ("abc") }

/-- Configured environment (discrete branch) with a malformed
DATABASE_PORT. -/
def envBadDbPort : Env :=
  { DATABASE_HOST := some ("dbhost"), DATABASE_PORT := some ("abc") }

/-- Truthiness distributes over the Python `or` of optional strings. -/
theorem truthy_pyOr (a b : Option String) :
    truthy (pyOr a b) = (truthy a || truthy b) := by
  unfold pyOr
  cases h : truthy a <;> simp [h]

/-- Claim C7: in every /health response, the HTTP 503 failure response
included, the status field equals the fixed string "ok"; a database
failure changes the status code and adds database/database_error fields
but never changes the status field. -/
theorem C7_status_always_ok (w : World) (env : Env) (ts : String) :
    (health w env ts).status = "ok" := by
  unfold health
  split
  · cases check_database w env <;> rfl
  · rfl

/-- Claim C8: for every environment state, GET / returns HTTP 200 with
exactly the fixed body message "AI Fabrix Application" and version
"1.0.0"; the handler reads nothing from the environment (it is a closed
constant of the embedding) and has no side effects. -/
theorem C8_root_fixed :
    root = ({ message := "AI Fabrix Application", version := "1.0.0" }, 200) := rfl

/-- Claim C2 (confirmed): when database configuration is detected,
GET /health returns 200 with database "connected" and no database_error
field exactly when the probe succeeds, and 503 with database "error" and
database_error carrying the probe diagnostic exactly when the probe
fails; database_error is present only in the failure case. -/
theorem C2_health_db_branch (w : World) (env : Env) (ts : String)
    (hc : databaseConfigured env = true) :
    (health w env ts =
        { status := "ok", timestamp := ts ++ "Z", database := some ("connected"),
          database_error := none, code := 200 } ↔
      check_database w env = DbCheck.ok) ∧
    (∀ e, health w env ts =
        { status := "ok", timestamp := ts ++ "Z", database := some ("error"),
          database_error := some e, code := 503 } ↔
      check_database w env = DbCheck.err e) := by
  unfold health
  rw [hc]
  cases hdb : check_database w env with
  | ok => simp
  | err e => simp

/-- Witness for C2: in the configured environment envHost with the
always-connecting world wOk, /health is HTTP 200 with database
"connected" and no database_error. -/
theorem C2_health_db_branch_witness :
    health wOk envHost ("T") =
      { status := "ok", timestamp := "T" ++ "Z", database := some ("connected"),
        database_error := none, code := 200 } :=
  ((C2_health_db_branch wOk envHost ("T") (by decide)).1).mpr (by decide)

/-- Counterexample for C1: with DATABASE_HOST set to the empty string
(and nothing else set), the host variable is set, yet the health handler
does not treat the database as configured: the response is identical
under a world whose connections succeed and one whose connections fail
(so the probe result is never consulted), and it is HTTP 200 with no
database field. This refutes the claimed "if and only if ... is set". -/
theorem C1_counterexample :
    envC1.DATABASE_HOST.isSome = true ∧
    databaseConfigured envC1 = false ∧
    health wOk envC1 ("T") = health wErr envC1 ("T") ∧
    (health wErr envC1 ("T")).database = none ∧
    (health wErr envC1 ("T")).code = 200 :=
  ⟨rfl, by decide, by decide, by decide, by decide⟩

/-- Claim C1 (amended): GET /health invokes the database probe if and
only if at least one of the connection URL, the host (DATABASE_HOST or
DB_HOST), or the database name (DATABASE_NAME or DB_NAME) is set to a
nonempty value; when none is, the response is HTTP 200 with only status
and timestamp (no database or database_error field) and is independent
of the external world, hence of any other database variables. -/
theorem C1_health_gating (w w2 : World) (env : Env) (ts : String) :
    (databaseConfigured env =
      (truthy env.DATABASE_URL || truthy env.DATABASE_HOST || truthy env.DB_HOST ||
       truthy env.DATABASE_NAME || truthy env.DB_NAME)) ∧
    (databaseConfigured env = false →
      health w env ts =
        { status := "ok", timestamp := ts ++ "Z", database := none,
          database_error := none, code := 200 } ∧
      health w env ts = health w2 env ts) := by
  constructor
  · unfold databaseConfigured
    rw [truthy_pyOr, truthy_pyOr]
    simp only [Bool.or_assoc]
  · intro hc
    unfold health
    rw [hc]
    exact ⟨rfl, rfl⟩

/-- Witness for C1 (amended): in envC1 nothing nonempty is set, and the
response is the bare 200 body. -/
theorem C1_health_gating_witness :
    health wOk envC1 ("T") =
      { status := "ok", timestamp := "T" ++ "Z", database := none,
        database_error := none, code := 200 } :=
  ((C1_health_gating wOk wErr envC1 ("T")).2 (by decide)).1

/-- Counterexample for C3: with PORT set to the non-integer "abc",
line 6's int() raises an unhandled ValueError before the server binds:
startup fails, contradicting "startup binds and listens unconditionally
for every environment". -/
theorem C3_counterexample :
    appRun envBadPort = Except.error ("invalid literal for int() with base 10: abc") := rfl

/-- Configured environment (discrete branch, legacy tier) with a
malformed DB_PORT and DATABASE_PORT unset. -/
def envBadLegacyPort : Env :=
  { DB_HOST := some ("dbhost"), DB_PORT := some ("nonsense") }

/-- Claim C3 (amended): startup binds and listens whenever PORT is unset
or parses as an integer, and every non-integer PORT value raises its
ValueError at startup, before binding; a malformed DATABASE_PORT or
DB_PORT is not validated upfront but surfaces as a probe failure — a
503 /health response carrying the ValueError text — whichever branch
consults it (DATABASE_PORT in the discrete branch, DB_PORT in its
legacy tier, DATABASE_PORT as the port fallback of a URL without a port
component); and the probe itself is total: it yields True or a
diagnostic string, never an unhandled exception. -/
theorem C3_startup_and_probe_errors :
    (∀ env : Env, env.PORT = none → appRun env = Except.ok ("0.0.0.0", 3000)) ∧
    (∀ (env : Env) (s : String) (n : Int), env.PORT = some s →
      pyInt s = Except.ok n → appRun env = Except.ok ("0.0.0.0", n)) ∧
    (∀ (env : Env) (s e : String), env.PORT = some s →
      pyInt s = Except.error e → appRun env = Except.error e) ∧
    (∀ (w : World) (env : Env) (ts s e : String),
      w.psycopg2 = true → env.DATABASE_URL = none → databaseConfigured env = true →
      env.DATABASE_PORT = some s → pyInt s = Except.error e →
      health w env ts =
        { status := "ok", timestamp := ts ++ "Z", database := some ("error"),
          database_error := some e, code := 503 }) ∧
    (∀ (w : World) (env : Env) (ts s e : String),
      w.psycopg2 = true → env.DATABASE_URL = none → databaseConfigured env = true →
      env.DATABASE_PORT = none → env.DB_PORT = some s → pyInt s = Except.error e →
      health w env ts =
        { status := "ok", timestamp := ts ++ "Z", database := some ("error"),
          database_error := some e, code := 503 }) ∧
    (∀ (w : World) (env : Env) (ts u s e : String),
      w.psycopg2 = true → env.DATABASE_URL = some u → ¬(u = "") →
      (w.urlparse u).port = none →
      env.DATABASE_PORT = some s → pyInt s = Except.error e →
      health w env ts =
        { status := "ok", timestamp := ts ++ "Z", database := some ("error"),
          database_error := some e, code := 503 }) ∧
    (∀ (w : World) (env : Env),
      check_database w env = DbCheck.ok ∨ ∃ e, check_database w env = DbCheck.err e) := by
  refine ⟨?_, ?_, ?_, ?_, ?_, ?_, ?_⟩
  · intro env h
    unfold appRun PORT
    rw [h]
  · intro env s n hs hn
    simp [appRun, PORT, hs, hn]
  · intro env s e hs he
    simp [appRun, PORT, hs, he]
  · intro w env ts s e hw hurl hc hs he
    have hdb : check_database w env = DbCheck.err e := by
      simp [check_database, resolvedParams, resolveDiscreteParams, discretePort,
        finishCheck, hw, hurl, hs, he]
    simp [health, hc, hdb]
  · intro w env ts s e hw hurl hc h0 hs he
    have hdb : check_database w env = DbCheck.err e := by
      simp [check_database, resolvedParams, resolveDiscreteParams, discretePort,
        finishCheck, hw, hurl, h0, hs, he]
    simp [health, hc, hdb]
  · intro w env ts u s e hw hu hne hp hs he
    have hc : databaseConfigured env = true := by
      simp [databaseConfigured, truthy, hu, hne]
    have hdb : check_database w env = DbCheck.err e := by
      simp [check_database, resolvedParams, resolveUrlParams, urlPort,
        urlPortFallback, finishCheck, hw, hu, hne, hp, hs, he]
    simp [health, hc, hdb]
  · intro w env
    cases h : check_database w env with
    | ok => exact Or.inl rfl
    | err e => exact Or.inr ⟨e, rfl⟩

/-- Witness for C3 (amended): PORT "abc" makes startup fail with the
ValueError text; a malformed DATABASE_PORT in a configured discrete
environment, and a malformed DB_PORT with DATABASE_PORT unset, each
yield the 503 response carrying the ValueError text. -/
theorem C3_startup_and_probe_errors_witness :
    appRun envBadPort = Except.error ("invalid literal for int() with base 10: abc") ∧
    health wOk envBadDbPort ("T") =
      { status := "ok", timestamp := "T" ++ "Z", database := some ("error"),
        database_error := some ("invalid literal for int() with base 10: abc"),
        code := 503 } ∧
    health wOk envBadLegacyPort ("T") =
      { status := "ok", timestamp := "T" ++ "Z", database := some ("error"),
        database_error := some ("invalid literal for int() with base 10: nonsense"),
        code := 503 } :=
  ⟨C3_startup_and_probe_errors.2.2.1 envBadPort ("abc")
      ("invalid literal for int() with base 10: abc") rfl rfl,
   C3_startup_and_probe_errors.2.2.2.1 wOk envBadDbPort ("T") ("abc")
      ("invalid literal for int() with base 10: abc") rfl rfl (by decide) rfl rfl,
   C3_startup_and_probe_errors.2.2.2.2.1 wOk envBadLegacyPort ("T") ("nonsense")
      ("invalid literal for int() with base 10: nonsense") rfl rfl (by decide)
      rfl rfl rfl⟩

/-- Claim C4 (confirmed): with DATABASE_URL set (nonempty) and its URL
carrying no port component, the probe's connection parameters carry the
integer parsed from DATABASE_PORT when that variable is set (and
parses), and 5432 when it is unset; and with the driver present the
probe is exactly the connection attempt on those parameters. -/
theorem C4_url_missing_port (w : World) (env : Env) (u : String)
    (hu : env.DATABASE_URL = some u) (hne : ¬(u = ""))
    (hp : (w.urlparse u).port = none) :
    (∀ s n, env.DATABASE_PORT = some s → pyInt s = Except.ok n →
      ∃ p, resolveUrlParams w.urlparse env u = Except.ok p ∧ p.port = n) ∧
    (env.DATABASE_PORT = none →
      ∃ p, resolveUrlParams w.urlparse env u = Except.ok p ∧ p.port = 5432) ∧
    (w.psycopg2 = true →
      check_database w env = finishCheck w (resolveUrlParams w.urlparse env u)) := by
  refine ⟨?_, ?_, ?_⟩
  · intro s n hs hn
    simp only [resolveUrlParams, urlPort, urlPortFallback, hp, hs, hn]
    exact ⟨_, rfl, rfl⟩
  · intro hs
    simp only [resolveUrlParams, urlPort, urlPortFallback, hp, hs]
    exact ⟨_, rfl, rfl⟩
  · intro hw
    simp [check_database, resolvedParams, hw, hu, hne]

/-- Environment for the C4 witness: a nonempty DATABASE_URL plus
DATABASE_PORT 6543. -/
def envUrl : Env :=
  { DATABASE_URL := some ("postgresql://user@dbhost/appdb"),
    DATABASE_PORT := some ("6543") }

/-- Witness for C4: under wOk (whose urlparse yields no port), envUrl
resolves to parameters whose port is 6543, the value parsed from
DATABASE_PORT. -/
theorem C4_url_missing_port_witness :
    ∃ p, resolveUrlParams wOk.urlparse envUrl ("postgresql://user@dbhost/appdb") =
      Except.ok p ∧ p.port = 6543 :=
  (C4_url_missing_port wOk envUrl ("postgresql://user@dbhost/appdb")
      rfl (by decide) rfl).1 ("6543") 6543 rfl rfl

/-- Claim C6 (confirmed): the probe is total with exactly two result
shapes (True, or a diagnostic string — it never raises); a missing
driver yields the fixed "psycopg2 not installed" message; with the
driver present, successfully resolved parameters lead to one connection
attempt whose success returns True and whose failure text is returned
verbatim, and a parameter-resolution error text is returned verbatim. -/
theorem C6_probe_outcomes (w : World) (env : Env) :
    (check_database w env = DbCheck.ok ∨ ∃ e, check_database w env = DbCheck.err e) ∧
    (w.psycopg2 = false → check_database w env = DbCheck.err ("psycopg2 not installed")) ∧
    (w.psycopg2 = true →
      (∀ p, resolvedParams w env = Except.ok p →
        (w.connect p = Except.ok () → check_database w env = DbCheck.ok) ∧
        (∀ e, w.connect p = Except.error e → check_database w env = DbCheck.err e)) ∧
      (∀ e, resolvedParams w env = Except.error e →
        check_database w env = DbCheck.err e)) := by
  refine ⟨?_, ?_, ?_⟩
  · cases h : check_database w env with
    | ok => exact Or.inl rfl
    | err e => exact Or.inr ⟨e, rfl⟩
  · intro hw
    unfold check_database
    rw [hw]
    rfl
  · intro hw
    constructor
    · intro p hp
      constructor
      · intro hc
        simp [check_database, finishCheck, hw, hp, hc]
      · intro e hc
        simp [check_database, finishCheck, hw, hp, hc]
    · intro e he
      simp [check_database, finishCheck, hw, he]

/-- The parameters envHost resolves to in the discrete branch. -/
def p0 : ConnParams :=
  { host := "dbhost", port := 5432, database := "postgres",
    user := "pgadmin", password := "admin123" }

/-- Witness for C6: under wErr the probe on envHost resolves p0, the
single connection attempt fails, and its text is returned verbatim. -/
theorem C6_probe_outcomes_witness :
    check_database wErr envHost = DbCheck.err ("connection refused") :=
  (((C6_probe_outcomes wErr envHost).2.2 rfl).1 p0 rfl).2 ("connection refused") rfl

/-- Claim C5 (confirmed): with no DATABASE_URL, every connection
parameter follows the two-tier alias precedence: primary DATABASE_*
name if set, else legacy DB_* name if set, else the hardcoded default
(host postgres, port 5432, database postgres, user pgadmin, password
admin123); and the probe on such an environment is the connection
attempt on the parameters so resolved. -/
theorem C5_discrete_precedence (w : World) (env : Env)
    (hurl : env.DATABASE_URL = none) :
    (∀ s, env.DATABASE_PORT = some s → discretePort env = pyInt s) ∧
    (env.DATABASE_PORT = none → ∀ s, env.DB_PORT = some s →
      discretePort env = pyInt s) ∧
    (env.DATABASE_PORT = none → env.DB_PORT = none →
      discretePort env = Except.ok 5432) ∧
    (∀ n, discretePort env = Except.ok n →
      ∃ p, resolveDiscreteParams env = Except.ok p) ∧
    (∀ n p, discretePort env = Except.ok n →
      resolveDiscreteParams env = Except.ok p →
      p.port = n ∧
      (∀ v, env.DATABASE_HOST = some v → p.host = v) ∧
      (env.DATABASE_HOST = none → ∀ v, env.DB_HOST = some v → p.host = v) ∧
      (env.DATABASE_HOST = none → env.DB_HOST = none → p.host = "postgres") ∧
      (∀ v, env.DATABASE_NAME = some v → p.database = v) ∧
      (env.DATABASE_NAME = none → ∀ v, env.DB_NAME = some v → p.database = v) ∧
      (env.DATABASE_NAME = none → env.DB_NAME = none → p.database = "postgres") ∧
      (∀ v, env.DATABASE_USER = some v → p.user = v) ∧
      (env.DATABASE_USER = none → ∀ v, env.DB_USER = some v → p.user = v) ∧
      (env.DATABASE_USER = none → env.DB_USER = none → p.user = "pgadmin") ∧
      (∀ v, env.DATABASE_PASSWORD = some v → p.password = v) ∧
      (env.DATABASE_PASSWORD = none → ∀ v, env.DB_PASSWORD = some v →
        p.password = v) ∧
      (env.DATABASE_PASSWORD = none → env.DB_PASSWORD = none →
        p.password = "admin123")) ∧
    (w.psycopg2 = true →
      check_database w env = finishCheck w (resolveDiscreteParams env)) := by
  refine ⟨?_, ?_, ?_, ?_, ?_, ?_⟩
  · intro s hs
    simp [discretePort, hs]
  · intro h0 s hs
    simp [discretePort, h0, hs]
  · intro h0 h1
    simp [discretePort, h0, h1]
  · intro n hn
    simp only [resolveDiscreteParams, hn]
    exact ⟨_, rfl⟩
  · intro n p hn hp
    simp only [resolveDiscreteParams, hn] at hp
    injection hp with hp
    subst hp
    refine ⟨rfl, ?_, ?_, ?_, ?_, ?_, ?_, ?_, ?_, ?_, ?_, ?_, ?_⟩
    · intro v hv; simp [hv]
    · intro h0 v hv; simp [h0, hv]
    · intro h0 h1; simp [h0, h1]
    · intro v hv; simp [hv]
    · intro h0 v hv; simp [h0, hv]
    · intro h0 h1; simp [h0, h1]
    · intro v hv; simp [hv]
    · intro h0 v hv; simp [h0, hv]
    · intro h0 h1; simp [h0, h1]
    · intro v hv; simp [hv]
    · intro h0 v hv; simp [h0, hv]
    · intro h0 h1; simp [h0, h1]
  · intro hw
    simp [check_database, resolvedParams, hurl, hw]

/-- Environment for the C5 witness: only the legacy DB_* variables
set. -/
def envLegacy : Env :=
  { DB_HOST := some ("h2"), DB_PORT := some ("9999"), DB_NAME := some ("d2"),
    DB_USER := some ("u2"), DB_PASSWORD := some ("p2") }

/-- Witness for C5: with only legacy variables set, the port comes from
DB_PORT and parameter resolution succeeds. -/
theorem C5_discrete_precedence_witness :
    discretePort envLegacy = pyInt ("9999") ∧
    ∃ p, resolveDiscreteParams envLegacy = Except.ok p :=
  ⟨(C5_discrete_precedence wOk envLegacy rfl).2.1 rfl ("9999") rfl,
   (C5_discrete_precedence wOk envLegacy rfl).2.2.2.1 9999 rfl⟩

/-- Claim C9 (confirmed): when DATABASE_URL is set (nonempty), the probe
result is invariant under arbitrary changes to the five legacy DB_*
variables: the URL branch falls back only to primary DATABASE_* names
and hardcoded defaults, never consulting DB_* aliases. -/
theorem C9_url_branch_ignores_legacy (w : World) (env : Env) (u : String)
    (hu : env.DATABASE_URL = some u) (hne : ¬(u = ""))
    (h p n v pw : Option String) :
    check_database w (setLegacy env h p n v pw) = check_database w env := by
  have hD : (setLegacy env h p n v pw).DATABASE_URL = some u := hu
  have hR : resolveUrlParams w.urlparse (setLegacy env h p n v pw) u
      = resolveUrlParams w.urlparse env u := rfl
  simp [check_database, resolvedParams, hD, hu, hne, hR]

/-- Witness for C9: overriding all five legacy variables on top of
envUrl leaves the probe result unchanged. -/
theorem C9_url_branch_ignores_legacy_witness :
    check_database wOk (setLegacy envUrl (some ("lh")) (some ("1")) (some ("ld"))
        (some ("lu")) (some ("lp"))) = check_database wOk envUrl :=
  C9_url_branch_ignores_legacy wOk envUrl ("postgresql://user@dbhost/appdb") rfl
    (by decide) (some ("lh")) (some ("1")) (some ("ld")) (some ("lu")) (some ("lp"))

/-- Claim C10 (confirmed): in the URL branch, a path of exactly "/"
yields the empty string as the database parameter (path[1:] of a truthy
path) — the DATABASE_NAME/default fallback is taken only when the path
is entirely empty. -/
theorem C10_url_root_path (up : String → ParsedUrl) (env : Env) (u : String) :
    ((up u).path = "/" → ∀ n, urlPort (up u).port env = Except.ok n →
      ∃ p, resolveUrlParams up env u = Except.ok p ∧ p.database = "") ∧
    ((up u).path = "" → ∀ n, urlPort (up u).port env = Except.ok n →
      ∃ p, resolveUrlParams up env u = Except.ok p ∧
        p.database = env.DATABASE_NAME.getD ("postgres")) := by
  constructor
  · intro hpath n hn
    simp only [resolveUrlParams, hn, hpath]
    exact ⟨_, rfl, rfl⟩
  · intro hpath n hn
    simp only [resolveUrlParams, hn, hpath]
    exact ⟨_, rfl, rfl⟩

/-- urlparse result of a URL whose path is exactly "/". -/
def purlSlash : ParsedUrl := { hostname := some ("h"), path := "/" }

/-- Environment with DATABASE_NAME set, to show the "/" path still wins
over it. -/
def envNamed : Env := { DATABASE_NAME := some ("configured_db") }

/-- Witness for C10: with path "/", the resolved database parameter is
the empty string even though DATABASE_NAME is set. -/
theorem C10_url_root_path_witness :
    ∃ p, resolveUrlParams (fun _ => purlSlash) envNamed ("postgresql://h/") =
      Except.ok p ∧ p.database = "" :=
  (C10_url_root_path (fun _ => purlSlash) envNamed ("postgresql://h/")).1 rfl 5432 rfl
